import Mathlib

/-!
Shallow embedding of `src/client/rust/src/connection.rs`.

The `Connection` struct and its two operations `connect` and `close`
(plus the `Drop` implementation) are translated into pure Lean
functions.  The operating system is modelled by explicit environments
(`ConnectEnv`, `CloseEnv`) that fix the outcome of each OS call
(`TcpListener::bind`, `TcpListener::local_addr`, `TcpListener::accept`,
`TcpStream::shutdown`).  Every OS call the code attempts is recorded in
an `IoEvent` trace, and the `unwrap()` on `local_addr()` is modelled by
a distinct `panic` outcome.
-/

namespace Krpc

/-- Decidable equality for `Except`, needed so concrete environments can
be compared by `decide`. -/
instance {ε α : Type} [DecidableEq ε] [DecidableEq α] :
    DecidableEq (Except ε α) := fun x y =>
  match x, y with
  | Except.ok a, Except.ok b =>
      if h : a = b then Decidable.isTrue (congrArg Except.ok h)
      else Decidable.isFalse (fun he => h (Except.ok.inj he))
  | Except.error a, Except.error b =>
      if h : a = b then Decidable.isTrue (congrArg Except.error h)
      else Decidable.isFalse (fun he => h (Except.error.inj he))
  | Except.ok _, Except.error _ =>
      Decidable.isFalse (fun he => Except.noConfusion he)
  | Except.error _, Except.ok _ =>
      Decidable.isFalse (fun he => Except.noConfusion he)

/-- Mirror of `std::io::ErrorKind` restricted to the kinds this
development mentions; `other n` stands for any further kind. -/
inductive ErrorKind where
  | invalidData
  | addrInUse
  | connectionReset
  | other (code : Nat)
deriving DecidableEq, Repr

/-- Mirror of `std::io::Error`: a kind together with a message. -/
structure IoError where
  kind : ErrorKind
  message : String
deriving DecidableEq, Repr

/-- An accepted client socket is opaque to this code; an abstract
identifier suffices. -/
abbrev TcpStream := Nat

/-- The OS-side behaviour of the listener obtained from a successful
`TcpListener::bind`: what `local_addr()` would report (the bound port),
and what the single `accept()` call would return. -/
structure TcpListener where
  localPort : Except IoError Nat
  acceptResult : Except IoError TcpStream

/-- The OS environment for one `connect()` call: the outcome of
`TcpListener::bind`. -/
structure ConnectEnv where
  bindResult : Except IoError TcpListener

/-- The OS environment for one `close()` call: the outcome of
`TcpStream::shutdown(Shutdown::Both)`. -/
structure CloseEnv where
  shutdownResult : Except IoError Unit
deriving DecidableEq

/-- OS calls the code can attempt, recorded as a trace. -/
inductive IoEvent where
  | bindAttempt (addr : String)
  | acceptAttempt
  | shutdownAttempt (s : TcpStream)
deriving DecidableEq, Repr

/-- The `Connection` struct of `connection.rs`. -/
structure Connection where
  address : String
  port : String
  stream : Option TcpStream
  used_up : Bool
deriving DecidableEq, Repr

/-- `Connection::new`. -/
def Connection.new (address port : String) : Connection :=
  { address := address, port := port, stream := none, used_up := false }

/-- Result of one `connect()` call: the Rust `std::io::Result<()>`
together with the state of `self` when the call returns, or `panic`
when the `unwrap()` on `local_addr()` fires. -/
inductive ConnectResult where
  | panic
  | ok (c : Connection)
  | error (e : IoError) (c : Connection)
deriving DecidableEq, Repr

/-- The error built by the `used_up` guard in `Connection::connect`. -/
def reuseError : IoError :=
  { kind := ErrorKind.invalidData, message := "Cannot reuse a `Connection`." }

/-- `Connection::connect`, with the trace of attempted OS calls. -/
def Connection.connect (c : Connection) (env : ConnectEnv) :
    ConnectResult × List IoEvent :=
  if c.used_up then
    (ConnectResult.error reuseError c, [])
  else
    match env.bindResult with
    | Except.error e =>
        (ConnectResult.error e c,
         [IoEvent.bindAttempt (c.address ++ ":" ++ c.port)])
    | Except.ok listener =>
        let bindEv := IoEvent.bindAttempt (c.address ++ ":" ++ c.port)
        if c.port = "0" then
          match listener.localPort with
          | Except.error _ => (ConnectResult.panic, [bindEv])
          | Except.ok p =>
              let c2 : Connection := { c with port := toString p }
              match listener.acceptResult with
              | Except.error e =>
                  (ConnectResult.error e c2, [bindEv, IoEvent.acceptAttempt])
              | Except.ok s =>
                  (ConnectResult.ok { c2 with stream := some s },
                   [bindEv, IoEvent.acceptAttempt])
        else
          match listener.acceptResult with
          | Except.error e =>
              (ConnectResult.error e c, [bindEv, IoEvent.acceptAttempt])
          | Except.ok s =>
              (ConnectResult.ok { c with stream := some s },
               [bindEv, IoEvent.acceptAttempt])

/-- The full outcome of one `close()` call: the returned
`std::io::Result<()>`, the state of `self` afterwards, and the trace. -/
structure CloseOut where
  result : Except IoError Unit
  conn : Connection
  trace : List IoEvent
deriving DecidableEq

/-- `Connection::close`. -/
def Connection.close (c : Connection) (env : CloseEnv) : CloseOut :=
  match c.stream with
  | some s =>
      match env.shutdownResult with
      | Except.ok _ =>
          { result := Except.ok ()
            conn := { c with used_up := true, stream := none }
            trace := [IoEvent.shutdownAttempt s] }
      | Except.error e =>
          { result := Except.error e
            conn := c
            trace := [IoEvent.shutdownAttempt s] }
  | none =>
      { result := Except.ok (), conn := c, trace := [] }

/-- The `Drop` implementation: calls `self.close()` and discards the
`std::io::Result`; only the final state and the trace remain. -/
def Connection.drop (c : Connection) (env : CloseEnv) :
    Connection × List IoEvent :=
  let out := c.close env
  (out.conn, out.trace)

/-- One caller-visible operation together with its OS environment. -/
inductive Op where
  | connectOp (env : ConnectEnv)
  | closeOp (env : CloseEnv)

/-- Execute one operation; `none` means the call panicked. -/
def step (c : Connection) (op : Op) : Option Connection :=
  match op with
  | Op.connectOp env =>
      match (c.connect env).1 with
      | ConnectResult.panic => none
      | ConnectResult.ok c' => some c'
      | ConnectResult.error _ c' => some c'
  | Op.closeOp env => some (c.close env).conn

/-- Execute a sequence of operations, stopping at a panic. -/
def run (c : Connection) (ops : List Op) : Option Connection :=
  match ops with
  | [] => some c
  | op :: rest =>
      match step c op with
      | none => none
      | some c' => run c' rest

/-- The address string passed to `TcpListener::bind`, as built by
`format!` in `connect`. -/
def bindAddr (c : Connection) : String :=
  c.address ++ ":" ++ c.port

/-! ### Helper lemmas -/

theorem connect_guard (c : Connection) (env : ConnectEnv)
    (h : c.used_up = true) :
    c.connect env = (ConnectResult.error reuseError c, []) := by
  simp [Connection.connect, h]

/-- Complete case analysis of `connect` when the reuse guard does not
fire. -/
theorem connect_cases (c : Connection) (env : ConnectEnv)
    (h : c.used_up = false) :
    (∃ e, env.bindResult = Except.error e ∧
      c.connect env = (ConnectResult.error e c, [IoEvent.bindAttempt (bindAddr c)])) ∨
    (∃ l e, env.bindResult = Except.ok l ∧ c.port = "0" ∧
      l.localPort = Except.error e ∧
      c.connect env = (ConnectResult.panic, [IoEvent.bindAttempt (bindAddr c)])) ∨
    (∃ l p e, env.bindResult = Except.ok l ∧ c.port = "0" ∧
      l.localPort = Except.ok p ∧ l.acceptResult = Except.error e ∧
      c.connect env = (ConnectResult.error e { c with port := toString p },
        [IoEvent.bindAttempt (bindAddr c), IoEvent.acceptAttempt])) ∨
    (∃ l p s, env.bindResult = Except.ok l ∧ c.port = "0" ∧
      l.localPort = Except.ok p ∧ l.acceptResult = Except.ok s ∧
      c.connect env = (ConnectResult.ok { c with port := toString p, stream := some s },
        [IoEvent.bindAttempt (bindAddr c), IoEvent.acceptAttempt])) ∨
    (∃ l e, env.bindResult = Except.ok l ∧ c.port ≠ "0" ∧
      l.acceptResult = Except.error e ∧
      c.connect env = (ConnectResult.error e c,
        [IoEvent.bindAttempt (bindAddr c), IoEvent.acceptAttempt])) ∨
    (∃ l s, env.bindResult = Except.ok l ∧ c.port ≠ "0" ∧
      l.acceptResult = Except.ok s ∧
      c.connect env = (ConnectResult.ok { c with stream := some s },
        [IoEvent.bindAttempt (bindAddr c), IoEvent.acceptAttempt])) := by
  rcases henv : env.bindResult with e | l
  · exact Or.inl ⟨e, rfl, by simp [Connection.connect, bindAddr, h, henv]⟩
  · by_cases hp : c.port = "0"
    · rcases hl : l.localPort with e | p
      · exact Or.inr (Or.inl ⟨l, e, rfl, hp, hl,
          by simp [Connection.connect, bindAddr, h, henv, hp, hl]⟩)
      · rcases ha : l.acceptResult with e | s
        · exact Or.inr (Or.inr (Or.inl ⟨l, p, e, rfl, hp, hl, ha,
            by simp [Connection.connect, bindAddr, h, henv, hp, hl, ha]⟩))
        · exact Or.inr (Or.inr (Or.inr (Or.inl ⟨l, p, s, rfl, hp, hl, ha,
            by simp [Connection.connect, bindAddr, h, henv, hp, hl, ha]⟩)))
    · rcases ha : l.acceptResult with e | s
      · exact Or.inr (Or.inr (Or.inr (Or.inr (Or.inl ⟨l, e, rfl, hp, ha,
          by simp [Connection.connect, bindAddr, h, henv, hp, ha]⟩))))
      · exact Or.inr (Or.inr (Or.inr (Or.inr (Or.inr ⟨l, s, rfl, hp, ha,
          by simp [Connection.connect, bindAddr, h, henv, hp, ha]⟩))))

theorem close_stream_none (c : Connection) (env : CloseEnv)
    (h : c.stream = none) :
    c.close env = ⟨Except.ok (), c, []⟩ := by
  simp [Connection.close, h]

theorem close_stream_some_ok (c : Connection) (env : CloseEnv) (s : TcpStream)
    (h : c.stream = some s) (hs : env.shutdownResult = Except.ok ()) :
    c.close env = ⟨Except.ok (), { c with used_up := true, stream := none },
      [IoEvent.shutdownAttempt s]⟩ := by
  simp [Connection.close, h, hs]

theorem close_stream_some_err (c : Connection) (env : CloseEnv)
    (s : TcpStream) (e : IoError)
    (h : c.stream = some s) (hs : env.shutdownResult = Except.error e) :
    c.close env = ⟨Except.error e, c, [IoEvent.shutdownAttempt s]⟩ := by
  simp [Connection.close, h, hs]

/-- An error return of `connect` taken with `used_up = false` leaves
`stream`, `used_up` and `address` as they were, and the error is exactly
the underlying bind or accept error. -/
theorem connect_error_state (c : Connection) (env : ConnectEnv)
    (e : IoError) (c' : Connection) (tr : List IoEvent)
    (h : c.used_up = false)
    (hc : c.connect env = (ConnectResult.error e c', tr)) :
    c'.stream = c.stream ∧ c'.used_up = false ∧ c'.address = c.address ∧
    (env.bindResult = Except.error e ∨
      ∃ l, env.bindResult = Except.ok l ∧ l.acceptResult = Except.error e) := by
  rcases connect_cases c env h with
    ⟨e₀, hb, heq⟩ | ⟨l, e₀, hb, hp, hl, heq⟩ | ⟨l, p, e₀, hb, hp, hl, ha, heq⟩ |
    ⟨l, p, s, hb, hp, hl, ha, heq⟩ | ⟨l, e₀, hb, hp, ha, heq⟩ | ⟨l, s, hb, hp, ha, heq⟩ <;>
    rw [heq] at hc <;> simp only [Prod.mk.injEq] at hc
  · obtain ⟨hr, -⟩ := hc
    simp only [ConnectResult.error.injEq] at hr
    obtain ⟨he, hcc⟩ := hr
    subst he; subst hcc
    exact ⟨rfl, h, rfl, Or.inl hb⟩
  · exact absurd hc.1 (by simp)
  · obtain ⟨hr, -⟩ := hc
    simp only [ConnectResult.error.injEq] at hr
    obtain ⟨he, hcc⟩ := hr
    subst he; subst hcc
    exact ⟨rfl, h, rfl, Or.inr ⟨l, hb, ha⟩⟩
  · exact absurd hc.1 (by simp)
  · obtain ⟨hr, -⟩ := hc
    simp only [ConnectResult.error.injEq] at hr
    obtain ⟨he, hcc⟩ := hr
    subst he; subst hcc
    exact ⟨rfl, h, rfl, Or.inr ⟨l, hb, ha⟩⟩
  · exact absurd hc.1 (by simp)

/-- A success return of `connect` holds an accepted stream and has not
touched `used_up` or `address`. -/
theorem connect_ok_state (c : Connection) (env : ConnectEnv)
    (c' : Connection) (tr : List IoEvent)
    (h : c.used_up = false)
    (hc : c.connect env = (ConnectResult.ok c', tr)) :
    (∃ s, c'.stream = some s) ∧ c'.used_up = false ∧ c'.address = c.address := by
  rcases connect_cases c env h with
    ⟨e₀, hb, heq⟩ | ⟨l, e₀, hb, hp, hl, heq⟩ | ⟨l, p, e₀, hb, hp, hl, ha, heq⟩ |
    ⟨l, p, s, hb, hp, hl, ha, heq⟩ | ⟨l, e₀, hb, hp, ha, heq⟩ | ⟨l, s, hb, hp, ha, heq⟩ <;>
    rw [heq] at hc <;> simp only [Prod.mk.injEq] at hc
  · exact absurd hc.1 (by simp)
  · exact absurd hc.1 (by simp)
  · exact absurd hc.1 (by simp)
  · obtain ⟨hr, -⟩ := hc
    simp only [ConnectResult.ok.injEq] at hr
    subst hr
    exact ⟨⟨s, rfl⟩, h, rfl⟩
  · exact absurd hc.1 (by simp)
  · obtain ⟨hr, -⟩ := hc
    simp only [ConnectResult.ok.injEq] at hr
    subst hr
    exact ⟨⟨s, rfl⟩, h, rfl⟩

/-- `used_up = true` is preserved by every operation. -/
theorem step_used_up_mono (c : Connection) (op : Op) (c' : Connection)
    (h : c.used_up = true) (hs : step c op = some c') :
    c'.used_up = true := by
  cases op with
  | connectOp env =>
      simp only [step, connect_guard c env h] at hs
      cases hs
      exact h
  | closeOp env =>
      simp only [step, Option.some.injEq] at hs
      subst hs
      rcases hstream : c.stream with _ | s
      · rw [close_stream_none c env hstream]; exact h
      · rcases hsd : env.shutdownResult with e | u
        · rw [close_stream_some_err c env s e hstream hsd]; exact h
        · rw [close_stream_some_ok c env s hstream (by rw [hsd])]

/-- `used_up = true` is preserved by every sequence of operations. -/
theorem run_used_up_mono (ops : List Op) (c : Connection) (c' : Connection)
    (h : c.used_up = true) (hs : run c ops = some c') :
    c'.used_up = true := by
  induction ops generalizing c with
  | nil => simp only [run, Option.some.injEq] at hs; subst hs; exact h
  | cons op rest ih =>
      simp only [run] at hs
      rcases hstep : step c op with _ | c₁
      · rw [hstep] at hs; cases hs
      · rw [hstep] at hs
        exact ih c₁ (step_used_up_mono c op c₁ h hstep) hs

/-- A `false → true` transition of `used_up` in one step can only be a
`close` that found a stream and whose shutdown succeeded; that `close`
returned `Ok(())`. -/
theorem step_used_up_flip (c : Connection) (op : Op) (c' : Connection)
    (hs : step c op = some c')
    (h : c.used_up = false) (h' : c'.used_up = true) :
    ∃ env s, op = Op.closeOp env ∧ c.stream = some s ∧
      env.shutdownResult = Except.ok () ∧
      (c.close env).result = Except.ok () := by
  cases op with
  | connectOp env =>
      exfalso
      simp only [step] at hs
      rcases hres : (c.connect env).1 with _ | c₁ | ⟨e, c₁⟩
      · rw [hres] at hs; cases hs
      · rw [hres] at hs
        simp only [Option.some.injEq] at hs
        subst hs
        have := connect_ok_state c env c₁ (c.connect env).2 h (by rw [← hres])
        rw [this.2.1] at h'
        simp at h'
      · rw [hres] at hs
        simp only [Option.some.injEq] at hs
        subst hs
        have := connect_error_state c env e c₁ (c.connect env).2 h (by rw [← hres])
        rw [this.2.1] at h'
        simp at h'
  | closeOp env =>
      simp only [step, Option.some.injEq] at hs
      subst hs
      rcases hstream : c.stream with _ | s
      · rw [close_stream_none c env hstream] at h'
        rw [h] at h'
        cases h'
      · rcases hsd : env.shutdownResult with e | u
        · rw [close_stream_some_err c env s e hstream hsd] at h'
          rw [h] at h'
          cases h'
        · exact ⟨env, s, rfl, rfl, by rw [hsd],
            by rw [close_stream_some_ok c env s hstream (by rw [hsd])]⟩

/-- `close` never touches `address` or `port`. -/
theorem close_conn_fields (c : Connection) (env : CloseEnv) :
    (c.close env).conn.address = c.address ∧ (c.close env).conn.port = c.port := by
  rcases hstream : c.stream with _ | s
  · rw [close_stream_none c env hstream]; exact ⟨rfl, rfl⟩
  · rcases hsd : env.shutdownResult with e | u
    · rw [close_stream_some_err c env s e hstream hsd]; exact ⟨rfl, rfl⟩
    · rw [close_stream_some_ok c env s hstream (by rw [hsd])]; exact ⟨rfl, rfl⟩

/-- If a step changed `port`, the step was a `connect` whose bind
succeeded while `port` was the sentinel `"0"`, and the new value is the
decimal rendering of the port reported by `local_addr`. -/
theorem step_port_change (c : Connection) (op : Op) (c' : Connection)
    (hs : step c op = some c') (hne : c'.port ≠ c.port) :
    c.port = "0" ∧ ∃ env l p, op = Op.connectOp env ∧
      env.bindResult = Except.ok l ∧ l.localPort = Except.ok p ∧
      c'.port = toString p := by
  cases op with
  | closeOp env =>
      simp only [step, Option.some.injEq] at hs
      subst hs
      exact absurd (close_conn_fields c env).2 hne
  | connectOp env =>
      by_cases hu : c.used_up = true
      · simp only [step, connect_guard c env hu, Option.some.injEq] at hs
        subst hs
        exact absurd rfl hne
      · rcases connect_cases c env (Bool.not_eq_true _ ▸ hu) with
          ⟨e₀, hb, heq⟩ | ⟨l, e₀, hb, hp, hl, heq⟩ | ⟨l, p, e₀, hb, hp, hl, ha, heq⟩ |
          ⟨l, p, s, hb, hp, hl, ha, heq⟩ | ⟨l, e₀, hb, hp, ha, heq⟩ | ⟨l, s, hb, hp, ha, heq⟩
        · simp only [step, heq, Option.some.injEq] at hs
          subst hs; exact absurd rfl hne
        · simp only [step, heq] at hs
          exact Option.noConfusion hs
        · simp only [step, heq, Option.some.injEq] at hs
          subst hs; exact ⟨hp, env, l, p, rfl, hb, hl, rfl⟩
        · simp only [step, heq, Option.some.injEq] at hs
          subst hs; exact ⟨hp, env, l, p, rfl, hb, hl, rfl⟩
        · simp only [step, heq, Option.some.injEq] at hs
          subst hs; exact absurd rfl hne
        · simp only [step, heq, Option.some.injEq] at hs
          subst hs; exact absurd (rfl : c.port = c.port) hne

/-- Once `port` differs from `"0"` no step changes it. -/
theorem step_port_stable (c : Connection) (op : Op) (c' : Connection)
    (hp : c.port ≠ "0") (hs : step c op = some c') : c'.port = c.port := by
  by_contra hne
  exact hp (step_port_change c op c' hs hne).1

/-- Once `port` differs from `"0"` no sequence of operations changes it. -/
theorem run_port_stable (ops : List Op) (c : Connection) (c' : Connection)
    (hp : c.port ≠ "0") (hs : run c ops = some c') : c'.port = c.port := by
  induction ops generalizing c with
  | nil => simp only [run, Option.some.injEq] at hs; subst hs; rfl
  | cons op rest ih =>
      simp only [run] at hs
      rcases hstep : step c op with _ | c₁
      · rw [hstep] at hs; cases hs
      · rw [hstep] at hs
        have h₁ := step_port_stable c op c₁ hp hstep
        rw [ih c₁ (h₁ ▸ hp) hs, h₁]

/-- When the reuse guard does not fire, `port` is `"0"`, the bind
succeeds and `local_addr` reports port `p`, every state `connect`
returns (success or error) carries `port = toString p`. -/
theorem connect_port_write (c : Connection) (env : ConnectEnv)
    (l : TcpListener) (p : Nat)
    (h : c.used_up = false) (hp : c.port = "0")
    (hb : env.bindResult = Except.ok l) (hl : l.localPort = Except.ok p)
    (c' : Connection)
    (hc : (c.connect env).1 = ConnectResult.ok c' ∨
      ∃ e, (c.connect env).1 = ConnectResult.error e c') :
    c'.port = toString p := by
  rcases connect_cases c env h with
    ⟨e₀, hb', heq⟩ | ⟨l', e₀, hb', hp', hl', heq⟩ | ⟨l', p', e₀, hb', hp', hl', ha, heq⟩ |
    ⟨l', p', s, hb', hp', hl', ha, heq⟩ | ⟨l', e₀, hb', hp', ha, heq⟩ | ⟨l', s, hb', hp', ha, heq⟩
  · rw [hb'] at hb; cases hb
  · rw [hb'] at hb
    cases hb
    rw [hl'] at hl; cases hl
  · rw [hb'] at hb
    cases hb
    rw [hl'] at hl
    cases hl
    rcases hc with hc | ⟨e, hc⟩
    · rw [heq] at hc; simp at hc
    · rw [heq] at hc
      simp only [ConnectResult.error.injEq] at hc
      obtain ⟨-, hcc⟩ := hc
      subst hcc
      rfl
  · rw [hb'] at hb
    cases hb
    rw [hl'] at hl
    cases hl
    rcases hc with hc | ⟨e, hc⟩
    · rw [heq] at hc
      simp only [ConnectResult.ok.injEq] at hc
      subst hc
      rfl
    · rw [heq] at hc; simp at hc
  · exact absurd hp hp'
  · exact absurd hp hp'

/-! ### Claim theorems -/

/-- C1 (amended): for every `Connection` whose `used_up` field is true,
`connect()` fails immediately with the reuse error — kind `InvalidData`
and the fixed message `"Cannot reuse a `Connection`."` — leaves the
state unchanged and performs no I/O (the trace is empty: no bind or
accept is attempted); and after any successful `connect()` followed by
a successful `close()`, `used_up` is true, so this applies. -/
theorem connect_rejects_used_up_connection :
    (∀ (c : Connection) (env : ConnectEnv), c.used_up = true →
      c.connect env = (ConnectResult.error reuseError c, []) ∧
      reuseError = { kind := ErrorKind.invalidData,
                     message := "Cannot reuse a `Connection`." }) ∧
    (∀ (c : Connection) (env₁ : ConnectEnv) (c₁ : Connection)
        (tr : List IoEvent) (env₂ : CloseEnv),
      c.connect env₁ = (ConnectResult.ok c₁, tr) →
      (c₁.close env₂).result = Except.ok () →
      (c₁.close env₂).conn.used_up = true) := by
  constructor
  · intro c env h
    exact ⟨connect_guard c env h, rfl⟩
  · intro c env₁ c₁ tr env₂ hconnect hok
    by_cases hu : c.used_up = true
    · rw [connect_guard c env₁ hu] at hconnect
      simp at hconnect
    · obtain ⟨⟨s, hstream⟩, -, -⟩ :=
        connect_ok_state c env₁ c₁ tr (Bool.not_eq_true _ ▸ hu) hconnect
      rcases hsd : env₂.shutdownResult with e | u
      · rw [close_stream_some_err c₁ env₂ s e hstream hsd] at hok
        exact Except.noConfusion hok
      · rw [close_stream_some_ok c₁ env₂ s hstream (by rw [hsd])]

/-- C1 counterexample: the message the code attaches to the reuse error
is `"Cannot reuse a `Connection`."`, not the claimed
`"Cannot reuse a Connection"`; shown on a concrete used-up handle. -/
theorem connect_reuse_message_differs :
    (Connection.connect
        { address := "127.0.0.1", port := "50000", stream := none, used_up := true }
        { bindResult := Except.error
            { kind := ErrorKind.addrInUse, message := "address in use" } })
      = (ConnectResult.error reuseError
          { address := "127.0.0.1", port := "50000", stream := none, used_up := true },
         []) ∧
    reuseError.message ≠ "Cannot reuse a Connection" := by
  exact ⟨rfl, by decide⟩

/-- C1 witness: the amended theorem applied to a concrete used-up
handle and to a concrete successful connect-then-close run. -/
theorem connect_rejects_used_up_connection_witness :
    (Connection.connect
        { address := "h", port := "1", stream := none, used_up := true }
        { bindResult := Except.error
            { kind := ErrorKind.addrInUse, message := "x" } })
      = (ConnectResult.error reuseError
          { address := "h", port := "1", stream := none, used_up := true }, []) ∧
    ((Connection.mk "h" "1" (some 3) false).close
        { shutdownResult := Except.ok () }).conn.used_up = true := by
  refine ⟨(connect_rejects_used_up_connection.1 _ _ rfl).1, ?_⟩
  exact connect_rejects_used_up_connection.2
    { address := "h", port := "1", stream := none, used_up := false }
    { bindResult := Except.ok { localPort := Except.ok 1, acceptResult := Except.ok 3 } }
    (Connection.mk "h" "1" (some 3) false)
    [IoEvent.bindAttempt "h:1", IoEvent.acceptAttempt]
    { shutdownResult := Except.ok () }
    (by decide) rfl

/-- C2: a `connect()` call on an idle handle (`stream` absent,
`used_up` false) that returns an error propagates the underlying bind
or accept error unchanged and leaves the handle idle: `stream` stays
`none` and `used_up` stays false. -/
theorem connect_os_failure_keeps_idle :
    ∀ (c : Connection) (env : ConnectEnv) (e : IoError) (c' : Connection)
      (tr : List IoEvent),
      c.used_up = false → c.stream = none →
      c.connect env = (ConnectResult.error e c', tr) →
      c'.stream = none ∧ c'.used_up = false ∧
      (env.bindResult = Except.error e ∨
        ∃ l, env.bindResult = Except.ok l ∧ l.acceptResult = Except.error e) := by
  intro c env e c' tr h hstream hc
  obtain ⟨h₁, h₂, -, h₄⟩ := connect_error_state c env e c' tr h hc
  exact ⟨h₁.trans hstream, h₂, h₄⟩

/-- C2 witness: a concrete bind failure (address in use) on a fresh
handle leaves it idle and surfaces the OS error unchanged. -/
theorem connect_os_failure_keeps_idle_witness :
    (Connection.new "127.0.0.1" "8080").connect
        { bindResult := Except.error
            { kind := ErrorKind.addrInUse, message := "address in use" } }
      = (ConnectResult.error
          { kind := ErrorKind.addrInUse, message := "address in use" }
          (Connection.new "127.0.0.1" "8080"),
         [IoEvent.bindAttempt "127.0.0.1:8080"]) ∧
    (Connection.new "127.0.0.1" "8080").stream = none ∧
    (Connection.new "127.0.0.1" "8080").used_up = false := by
  refine ⟨by decide, ?_, rfl⟩
  exact (connect_os_failure_keeps_idle (Connection.new "127.0.0.1" "8080")
    { bindResult := Except.error
        { kind := ErrorKind.addrInUse, message := "address in use" } }
    { kind := ErrorKind.addrInUse, message := "address in use" }
    (Connection.new "127.0.0.1" "8080")
    [IoEvent.bindAttempt "127.0.0.1:8080"]
    rfl rfl (by decide)).1

/-- C3: when a stream is held and the bidirectional shutdown fails,
`close()` returns the underlying I/O error unchanged and the whole
`Connection` record — in particular `stream` and `used_up` — is left
untouched. -/
theorem close_shutdown_failure_atomic :
    ∀ (c : Connection) (env : CloseEnv) (s : TcpStream) (e : IoError),
      c.stream = some s → env.shutdownResult = Except.error e →
      c.close env = ⟨Except.error e, c, [IoEvent.shutdownAttempt s]⟩ := by
  intro c env s e h hs
  exact close_stream_some_err c env s e h hs

/-- C3 witness: a concrete failing shutdown on a held stream. -/
theorem close_shutdown_failure_atomic_witness :
    (Connection.mk "h" "1" (some 7) false).close
        { shutdownResult := Except.error
            { kind := ErrorKind.connectionReset, message := "broken pipe" } }
      = ⟨Except.error { kind := ErrorKind.connectionReset, message := "broken pipe" },
         Connection.mk "h" "1" (some 7) false,
         [IoEvent.shutdownAttempt 7]⟩ :=
  close_shutdown_failure_atomic (Connection.mk "h" "1" (some 7) false)
    { shutdownResult := Except.error
        { kind := ErrorKind.connectionReset, message := "broken pipe" } }
    7 { kind := ErrorKind.connectionReset, message := "broken pipe" } rfl rfl

/-- C4: with `stream` absent `close()` succeeds as a no-op (state,
including `used_up`, unchanged; no I/O), two successive `close()` calls
on such a handle both succeed, and more generally any `close()`
following a successful `close()` succeeds, whether or not a connection
was ever accepted. -/
theorem close_absent_stream_idempotent :
    (∀ (c : Connection) (env : CloseEnv), c.stream = none →
      c.close env = ⟨Except.ok (), c, []⟩) ∧
    (∀ (c : Connection) (env₁ env₂ : CloseEnv), c.stream = none →
      (c.close env₁).result = Except.ok () ∧
      ((c.close env₁).conn.close env₂).result = Except.ok ()) ∧
    (∀ (c : Connection) (env₁ env₂ : CloseEnv),
      (c.close env₁).result = Except.ok () →
      ((c.close env₁).conn.close env₂).result = Except.ok ()) := by
  refine ⟨fun c env h => close_stream_none c env h, ?_, ?_⟩
  · intro c env₁ env₂ h
    rw [close_stream_none c env₁ h]
    exact ⟨rfl, by rw [close_stream_none c env₂ h]⟩
  · intro c env₁ env₂ hok
    rcases hstream : c.stream with _ | s
    · rw [close_stream_none c env₁ hstream]
      rw [close_stream_none c env₂ hstream]
    · rcases hsd : env₁.shutdownResult with e | u
      · rw [close_stream_some_err c env₁ s e hstream hsd] at hok
        exact Except.noConfusion hok
      · rw [close_stream_some_ok c env₁ s hstream (by rw [hsd])]
        rw [close_stream_none _ env₂ rfl]

/-- C4 witness: closing a never-connected handle twice, and closing
again after a successful close of a held stream. -/
theorem close_absent_stream_idempotent_witness :
    (Connection.new "h" "1").close { shutdownResult := Except.ok () }
      = ⟨Except.ok (), Connection.new "h" "1", []⟩ ∧
    ((((Connection.mk "h" "1" (some 2) false).close
        { shutdownResult := Except.ok () }).conn.close
        { shutdownResult := Except.ok () }).result = Except.ok ()) := by
  constructor
  · exact close_absent_stream_idempotent.1 (Connection.new "h" "1")
      { shutdownResult := Except.ok () } rfl
  · exact close_absent_stream_idempotent.2.2
      (Connection.mk "h" "1" (some 2) false)
      { shutdownResult := Except.ok () } { shutdownResult := Except.ok () } rfl

/-- C5: `used_up` never reverts from true (for single steps and for
whole operation sequences), a `false → true` flip can only happen at a
`close()` that fully succeeded on a held stream, and after a flip
`used_up` stays true through any further operations — so the flip
happens at most once in any sequence of `connect()`/`close()` calls. -/
theorem used_up_flips_at_most_once :
    (∀ (ops : List Op) (c c' : Connection), run c ops = some c' →
      c.used_up = true → c'.used_up = true) ∧
    (∀ (c : Connection) (op : Op) (c' : Connection), step c op = some c' →
      c.used_up = false → c'.used_up = true →
      ∃ env s, op = Op.closeOp env ∧ c.stream = some s ∧
        env.shutdownResult = Except.ok () ∧
        (c.close env).result = Except.ok ()) ∧
    (∀ (c : Connection) (pre : List Op) (op : Op) (mid : List Op)
        (c₁ c₂ c₃ : Connection),
      run c pre = some c₁ → step c₁ op = some c₂ → run c₂ mid = some c₃ →
      c₁.used_up = false → c₂.used_up = true → c₃.used_up = true) := by
  refine ⟨?_, ?_, ?_⟩
  · intro ops c c' h hu
    exact run_used_up_mono ops c c' hu h
  · intro c op c' hs h h'
    exact step_used_up_flip c op c' hs h h'
  · intro c pre op mid c₁ c₂ c₃ h₁ h₂ h₃ h₄ h₅
    exact run_used_up_mono mid c₂ c₃ h₅ h₃

/-- C5 witness: a concrete successful close of a held stream is the
step at which `used_up` flips. -/
theorem used_up_flips_at_most_once_witness :
    step (Connection.mk "h" "1" (some 4) false)
        (Op.closeOp { shutdownResult := Except.ok () })
      = some (Connection.mk "h" "1" none true) ∧
    (∃ env s, Op.closeOp { shutdownResult := Except.ok () } = Op.closeOp env ∧
      (Connection.mk "h" "1" (some 4) false).stream = some s ∧
      env.shutdownResult = Except.ok () ∧
      ((Connection.mk "h" "1" (some 4) false).close env).result = Except.ok ()) := by
  refine ⟨rfl, ?_⟩
  exact used_up_flips_at_most_once.2.1
    (Connection.mk "h" "1" (some 4) false)
    (Op.closeOp { shutdownResult := Except.ok () })
    (Connection.mk "h" "1" none true) rfl rfl rfl

/-- C6: a step changes `port` only when it held the sentinel `"0"` at
bind time and `connect`'s bind succeeded, storing the decimal rendering
of the OS-reported port; once changed it never changes again in any
later sequence of operations; and whenever the reuse guard does not
fire, `port` is `"0"`, the bind succeeds and `local_addr` reports `p`,
every state `connect` returns carries `port = toString p` — the
resolved port is observable to the caller when `connect` returns. -/
theorem port_overwritten_at_most_once :
    (∀ (c : Connection) (op : Op) (c' : Connection),
      step c op = some c' → c'.port ≠ c.port →
      c.port = "0" ∧ ∃ env l p, op = Op.connectOp env ∧
        env.bindResult = Except.ok l ∧ l.localPort = Except.ok p ∧
        c'.port = toString p) ∧
    (∀ (c : Connection) (pre : List Op) (op : Op) (mid : List Op)
        (c₁ c₂ c₃ : Connection),
      run c pre = some c₁ → step c₁ op = some c₂ → run c₂ mid = some c₃ →
      c₂.port ≠ c₁.port → c₃.port = c₂.port) ∧
    (∀ (c : Connection) (env : ConnectEnv) (l : TcpListener) (p : Nat)
        (c' : Connection),
      c.used_up = false → c.port = "0" →
      env.bindResult = Except.ok l → l.localPort = Except.ok p →
      ((c.connect env).1 = ConnectResult.ok c' ∨
        ∃ e, (c.connect env).1 = ConnectResult.error e c') →
      c'.port = toString p) := by
  refine ⟨?_, ?_, ?_⟩
  · intro c op c' hs hne
    exact step_port_change c op c' hs hne
  · intro c pre op mid c₁ c₂ c₃ h₁ h₂ h₃ hne
    obtain ⟨hz, -⟩ := step_port_change c₁ op c₂ h₂ hne
    have hnz : c₂.port ≠ "0" := fun h0 => hne (h0.trans hz.symm)
    exact run_port_stable mid c₂ c₃ hnz h₃
  · intro c env l p c' h hp hb hl hc
    exact connect_port_write c env l p h hp hb hl c' hc

/-- C6 witness: binding with port `"0"` and an OS-reported port 54321
stores `"54321"` into the returned state's `port`. -/
theorem port_overwritten_at_most_once_witness :
    ((Connection.mk "127.0.0.1" "0" none false).connect
        { bindResult := Except.ok
            { localPort := Except.ok 54321, acceptResult := Except.ok 9 } }).1
      = ConnectResult.ok (Connection.mk "127.0.0.1" "54321" (some 9) false) ∧
    (Connection.mk "127.0.0.1" "54321" (some 9) false).port = toString 54321 := by
  refine ⟨by decide, ?_⟩
  exact port_overwritten_at_most_once.2.2
    (Connection.mk "127.0.0.1" "0" none false)
    { bindResult := Except.ok
        { localPort := Except.ok 54321, acceptResult := Except.ok 9 } }
    { localPort := Except.ok 54321, acceptResult := Except.ok 9 } 54321
    (Connection.mk "127.0.0.1" "54321" (some 9) false)
    rfl rfl rfl rfl (Or.inl (by decide))

/-- C7: calling `connect()` again while a stream is already held and
`used_up` is still false is not stopped by the reuse guard: the bind
and accept are performed and succeed, and the previously held stream is
overwritten by the newly accepted one with no shutdown ever attempted
on it. -/
theorem connect_with_held_stream_overwrites :
    ∀ (c : Connection) (s : TcpStream) (env : ConnectEnv) (l : TcpListener)
      (s' : TcpStream),
      c.used_up = false → c.stream = some s →
      env.bindResult = Except.ok l → l.acceptResult = Except.ok s' →
      (c.port = "0" → ∃ p, l.localPort = Except.ok p) →
      ∃ c', c.connect env = (ConnectResult.ok c',
          [IoEvent.bindAttempt (bindAddr c), IoEvent.acceptAttempt]) ∧
        c'.stream = some s' ∧
        ∀ t, IoEvent.shutdownAttempt t ∉ (c.connect env).2 := by
  intro c s env l s' h hstream hb ha hport
  rcases connect_cases c env h with
    ⟨e₀, hb', heq⟩ | ⟨l', e₀, hb', hp', hl', heq⟩ | ⟨l', p', e₀, hb', hp', hl', ha', heq⟩ |
    ⟨l', p', s₀, hb', hp', hl', ha', heq⟩ | ⟨l', e₀, hb', hp', ha', heq⟩ | ⟨l', s₀, hb', hp', ha', heq⟩
  · rw [hb'] at hb
    exact Except.noConfusion hb
  · rw [hb'] at hb
    obtain rfl := Except.ok.inj hb
    obtain ⟨p, hp⟩ := hport hp'
    rw [hl'] at hp
    exact Except.noConfusion hp
  · rw [hb'] at hb
    obtain rfl := Except.ok.inj hb
    rw [ha'] at ha
    exact Except.noConfusion ha
  · rw [hb'] at hb
    obtain rfl := Except.ok.inj hb
    rw [ha'] at ha
    obtain rfl := Except.ok.inj ha
    refine ⟨_, heq, rfl, ?_⟩
    intro t
    rw [heq]
    simp
  · rw [hb'] at hb
    obtain rfl := Except.ok.inj hb
    rw [ha'] at ha
    exact Except.noConfusion ha
  · rw [hb'] at hb
    obtain rfl := Except.ok.inj hb
    rw [ha'] at ha
    obtain rfl := Except.ok.inj ha
    refine ⟨_, heq, rfl, ?_⟩
    intro t
    rw [heq]
    simp

/-- C7 witness: a concrete second `connect()` on a handle already
holding stream 1 accepts stream 2 and overwrites without shutdown. -/
theorem connect_with_held_stream_overwrites_witness :
    ∃ c', (Connection.mk "h" "9000" (some 1) false).connect
        { bindResult := Except.ok
            { localPort := Except.ok 9000, acceptResult := Except.ok 2 } }
      = (ConnectResult.ok c',
         [IoEvent.bindAttempt (bindAddr (Connection.mk "h" "9000" (some 1) false)),
          IoEvent.acceptAttempt]) ∧
      c'.stream = some 2 ∧
      ∀ t, IoEvent.shutdownAttempt t ∉
        ((Connection.mk "h" "9000" (some 1) false).connect
          { bindResult := Except.ok
              { localPort := Except.ok 9000, acceptResult := Except.ok 2 } }).2 :=
  connect_with_held_stream_overwrites
    (Connection.mk "h" "9000" (some 1) false) 1
    { bindResult := Except.ok
        { localPort := Except.ok 9000, acceptResult := Except.ok 2 } }
    { localPort := Except.ok 9000, acceptResult := Except.ok 2 } 2
    rfl rfl rfl rfl (fun hp => absurd hp (by decide))

/-- C8: the `Drop` implementation runs exactly the `close()` logic and
discards the `io::Result`: for every state and environment the state
(and trace) after implicit teardown equals the state (and trace) after
an explicit `close()`, and the teardown's return type has no error
channel. -/
theorem drop_equals_close_state :
    ∀ (c : Connection) (env : CloseEnv),
      c.drop env = ((c.close env).conn, (c.close env).trace) :=
  fun _ _ => rfl

/-- C9: `connect` panics exactly when the reuse guard does not fire,
`port` is the sentinel `"0"`, the bind succeeds, and reading the
listener's local address fails (the `unwrap`); every other OS outcome
yields a normal success or error return. -/
theorem connect_panic_characterization :
    ∀ (c : Connection) (env : ConnectEnv),
      (c.connect env).1 = ConnectResult.panic ↔
        (c.used_up = false ∧ c.port = "0" ∧
          ∃ l e, env.bindResult = Except.ok l ∧
            l.localPort = Except.error e) := by
  intro c env
  constructor
  · intro hpanic
    by_cases hu : c.used_up = true
    · rw [connect_guard c env hu] at hpanic
      simp at hpanic
    · have h := Bool.not_eq_true c.used_up ▸ hu
      refine ⟨h, ?_⟩
      rcases connect_cases c env h with
        ⟨e₀, hb', heq⟩ | ⟨l', e₀, hb', hp', hl', heq⟩ | ⟨l', p', e₀, hb', hp', hl', ha', heq⟩ |
        ⟨l', p', s₀, hb', hp', hl', ha', heq⟩ | ⟨l', e₀, hb', hp', ha', heq⟩ | ⟨l', s₀, hb', hp', ha', heq⟩
      · rw [heq] at hpanic; simp at hpanic
      · exact ⟨hp', l', e₀, hb', hl'⟩
      · rw [heq] at hpanic; simp at hpanic
      · rw [heq] at hpanic; simp at hpanic
      · rw [heq] at hpanic; simp at hpanic
      · rw [heq] at hpanic; simp at hpanic
  · rintro ⟨h, hp, l, e, hb, hl⟩
    rcases connect_cases c env h with
      ⟨e₀, hb', heq⟩ | ⟨l', e₀, hb', hp', hl', heq⟩ | ⟨l', p', e₀, hb', hp', hl', ha', heq⟩ |
      ⟨l', p', s₀, hb', hp', hl', ha', heq⟩ | ⟨l', e₀, hb', hp', ha', heq⟩ | ⟨l', s₀, hb', hp', ha', heq⟩
    · rw [hb'] at hb
      exact Except.noConfusion hb
    · rw [heq]
    · rw [hb'] at hb
      obtain rfl := Except.ok.inj hb
      rw [hl'] at hl
      exact Except.noConfusion hl
    · rw [hb'] at hb
      obtain rfl := Except.ok.inj hb
      rw [hl'] at hl
      exact Except.noConfusion hl
    · exact absurd hp hp'
    · exact absurd hp hp'

/-- C9 witness: a concrete handle with port `"0"` whose bind succeeds
but whose `local_addr` read fails makes `connect` panic. -/
theorem connect_panic_characterization_witness :
    ((Connection.mk "h" "0" none false).connect
        { bindResult := Except.ok
            { localPort := Except.error
                { kind := ErrorKind.other 1, message := "addr unavailable" }
              acceptResult := Except.ok 2 } }).1
      = ConnectResult.panic :=
  (connect_panic_characterization (Connection.mk "h" "0" none false)
      { bindResult := Except.ok
          { localPort := Except.error
              { kind := ErrorKind.other 1, message := "addr unavailable" }
            acceptResult := Except.ok 2 } }).mpr
    ⟨rfl, rfl, _, _, rfl, rfl⟩

/-- C10: the reuse error is an `io::Error` with kind `InvalidData` and
the literal message `"Cannot reuse a `Connection`."`; a genuine OS
`InvalidData` bind failure propagates with that very same kind, so the
two are indistinguishable by kind. -/
theorem reuse_error_kind_invalid_data :
    (∀ (c : Connection) (env : ConnectEnv), c.used_up = true →
      (c.connect env).1 = ConnectResult.error reuseError c ∧
      reuseError.kind = ErrorKind.invalidData ∧
      reuseError.message = "Cannot reuse a `Connection`.") ∧
    (∀ (c : Connection) (env : ConnectEnv) (msg : String),
      c.used_up = false →
      env.bindResult = Except.error
        { kind := ErrorKind.invalidData, message := msg } →
      (c.connect env).1
        = ConnectResult.error
            { kind := ErrorKind.invalidData, message := msg } c ∧
      (IoError.mk ErrorKind.invalidData msg).kind = reuseError.kind) := by
  constructor
  · intro c env h
    exact ⟨by rw [connect_guard c env h], rfl, rfl⟩
  · intro c env msg h hb
    refine ⟨?_, rfl⟩
    rcases connect_cases c env h with
      ⟨e₀, hb', heq⟩ | ⟨l', e₀, hb', hp', hl', heq⟩ | ⟨l', p', e₀, hb', hp', hl', ha', heq⟩ |
      ⟨l', p', s₀, hb', hp', hl', ha', heq⟩ | ⟨l', e₀, hb', hp', ha', heq⟩ | ⟨l', s₀, hb', hp', ha', heq⟩
    · rw [hb'] at hb
      obtain rfl := Except.error.inj hb
      rw [heq]
    · rw [hb'] at hb
      exact Except.noConfusion hb
    · rw [hb'] at hb
      exact Except.noConfusion hb
    · rw [hb'] at hb
      exact Except.noConfusion hb
    · rw [hb'] at hb
      exact Except.noConfusion hb
    · rw [hb'] at hb
      exact Except.noConfusion hb

/-- C10 witness: concrete reuse rejection, and a concrete OS
`InvalidData` bind failure carrying the same kind. -/
theorem reuse_error_kind_invalid_data_witness :
    ((Connection.mk "h" "1" none true).connect
        { bindResult := Except.error
            { kind := ErrorKind.addrInUse, message := "x" } }).1
      = ConnectResult.error reuseError (Connection.mk "h" "1" none true) ∧
    ((Connection.mk "h" "1" none false).connect
        { bindResult := Except.error
            { kind := ErrorKind.invalidData, message := "corrupt" } }).1
      = ConnectResult.error
          { kind := ErrorKind.invalidData, message := "corrupt" }
          (Connection.mk "h" "1" none false) := by
  constructor
  · exact (reuse_error_kind_invalid_data.1 (Connection.mk "h" "1" none true)
      { bindResult := Except.error
          { kind := ErrorKind.addrInUse, message := "x" } } rfl).1
  · exact (reuse_error_kind_invalid_data.2 (Connection.mk "h" "1" none false)
      { bindResult := Except.error
          { kind := ErrorKind.invalidData, message := "corrupt" } }
      "corrupt" rfl rfl).1

end Krpc
